import Mathlib

/-!
Verification development for the LoRa Edge tracker reference lambda
(`semtech_loraedge_referencetracker_v10.py`).

The Python source is shallowly embedded below.  Modelling conventions:

* Python strings of payload data are `List Char`; dictionary keys and other
  fixed strings are Lean `String`.
* Parsed JSON values are the inductive `Val` (`null`, int, float as `Rat`,
  string, list, object).  A Python dict is an insertion-ordered association
  list `List (String × Val)`; item assignment is `dictSet`, which replaces in
  place or appends, exactly like a Python dict preserves insertion order.
* A Python exception escaping `lambda_handler` is modelled as `Except.error`
  of a `PyErr`; the function has no try/except, so every raise propagates.
* Machine floats are modelled as `Rat`.  All float values produced by the
  source on the inputs used in the theorems below (x/100, x/1000,
  100*(2400-c)/2400, epoch seconds) are exactly representable, so `Rat`
  agrees with IEEE double there.
* `print` calls are modelled as no-ops, except that evaluating a print
  argument can raise (`retVal['sensors']`, and the unbound `r` at the
  `wifi location error` print of the tag-08 branch); those raises are kept.
* The HTTP transport (`send_https`) is an oracle `Nat → HttpResp` giving, for
  the n-th outbound call, the raw response string together with the value
  `json.loads` would produce on it (`none` when `json.loads` would raise).
  The body handed to `send_https` is recorded structurally (the `Val` that is
  `json.dumps`-ed); `json.dumps` is injective on this subset, so nothing is
  lost.  `send_downlink` calls are recorded as `DownCall` values paired with
  the solver-provided directive that produced them.
-/

set_option maxRecDepth 4000

/-- Python `int(c, 16)` value of a single hex digit, `none` if `c` is not a
hex digit (both cases accepted, as in Python). -/
def hexDigitVal? (c : Char) : Option Nat :=
  if '0' ≤ c ∧ c ≤ '9' then some (c.toNat - 48)
  else if 'a' ≤ c ∧ c ≤ 'f' then some (c.toNat - 87)
  else if 'A' ≤ c ∧ c ≤ 'F' then some (c.toNat - 55)
  else none

def hexNatAux : List Char → Nat → Option Nat
  | [], acc => some acc
  | c :: cs, acc =>
    match hexDigitVal? c with
    | none => none
    | some d => hexNatAux cs (acc * 16 + d)

/-- Python `int(s, 16)` on a string of hex digits: fails on the empty string
(`int('', 16)` raises `ValueError`) and on any non-hex-digit character.
(Signs, whitespace and underscores, which Python would also accept, never
occur in the hex payloads handled here and are not modelled.) -/
def hexNat? (l : List Char) : Option Nat :=
  if l = [] then none else hexNatAux l 0

/-- Upper-case hex digit character for `n < 16`. -/
def hexDigit (n : Nat) : Char :=
  if n = 0 then '0' else if n = 1 then '1' else if n = 2 then '2'
  else if n = 3 then '3' else if n = 4 then '4' else if n = 5 then '5'
  else if n = 6 then '6' else if n = 7 then '7' else if n = 8 then '8'
  else if n = 9 then '9' else if n = 10 then 'A' else if n = 11 then 'B'
  else if n = 12 then 'C' else if n = 13 then 'D' else if n = 14 then 'E'
  else 'F'

/-- A byte rendered as two hex digits (the canonical encoding of a TLV
length field). -/
def byteHex (n : Nat) : List Char :=
  [hexDigit (n / 16), hexDigit (n % 16)]

/-- Lower-case hex digit, as produced by Python `bytes.hex()`. -/
def hexDigitLower (n : Nat) : Char :=
  if n = 10 then 'a' else if n = 11 then 'b' else if n = 12 then 'c'
  else if n = 13 then 'd' else if n = 14 then 'e' else if n = 15 then 'f'
  else hexDigit n

/-- Python `bytes.hex()`: lower-case hex rendering of a byte sequence. -/
def bytesToHex : List Nat → List Char
  | [] => []
  | b :: bs => hexDigitLower (b / 16) :: hexDigitLower (b % 16) :: bytesToHex bs

/-- Python `bytes.fromhex`: pairs of hex digits to bytes; fails on odd
length or a non-hex character (`ValueError`). -/
def bytesFromHex : List Char → Option (List Nat)
  | [] => some []
  | [_] => none
  | c1 :: c2 :: rest =>
    match hexDigitVal? c1, hexDigitVal? c2 with
    | some h, some l =>
      match bytesFromHex rest with
      | some bs => some ((h * 16 + l) :: bs)
      | none => none
    | _, _ => none

/-- Signed 16-bit value of a `>h` struct field (big-endian pair already
combined into `0 ≤ n < 65536`). -/
def toS16 (n : Nat) : Int :=
  if n < 32768 then (n : Int) else (n : Int) - 65536

/-- Python slice `l[a:b]` for `0 ≤ a ≤ b` (never fails, clips at the end). -/
def pySlice (l : List Char) (a b : Nat) : List Char :=
  (l.take b).drop a

/-- `str.upper()` restricted to ASCII, which is all the source ever feeds it
(hex tag characters). -/
def pyUpperL (l : List Char) : List Char := l.map Char.toUpper

/-- `str.lower()` restricted to ASCII. -/
def pyLowerL (l : List Char) : List Char := l.map Char.toLower

/-- Substring test `pat in s` on character lists (Python `in` on `str`). -/
def listContains : List Char → List Char → Bool
  | pat, [] => pat.isEmpty
  | pat, c :: rest => pat.isPrefixOf (c :: rest) || listContains pat rest

/-- Python `pat in s` for strings. -/
def strContains (s pat : String) : Bool :=
  listContains pat.toList s.toList

/-- `'-'.join(DevEui[i:i+2] for i in range(0, len(DevEui), 2))`. -/
def dashPairs : List Char → List Char
  | [] => []
  | [c] => [c]
  | [c1, c2] => [c1, c2]
  | c1 :: c2 :: c3 :: rest => c1 :: c2 :: '-' :: dashPairs (c3 :: rest)

/-- Base64 alphabet value of a character (strict). -/
def b64val? (c : Char) : Option Nat :=
  if 'A' ≤ c ∧ c ≤ 'Z' then some (c.toNat - 65)
  else if 'a' ≤ c ∧ c ≤ 'z' then some (c.toNat - 97 + 26)
  else if '0' ≤ c ∧ c ≤ '9' then some (c.toNat - 48 + 52)
  else if c = '+' then some 62
  else if c = '/' then some 63
  else none

/-- Base64 alphabet character for `n < 64`. -/
def b64chr (n : Nat) : Char :=
  if n < 26 then Char.ofNat (65 + n)
  else if n < 52 then Char.ofNat (97 + (n - 26))
  else if n < 62 then Char.ofNat (48 + (n - 52))
  else if n = 62 then '+'
  else '/'

/-- Python `base64.b64encode` (standard alphabet, with padding). -/
def b64encode : List Nat → List Char
  | b1 :: b2 :: b3 :: rest =>
    b64chr (b1 / 4) :: b64chr ((b1 % 4) * 16 + b2 / 16) ::
    b64chr ((b2 % 16) * 4 + b3 / 64) :: b64chr (b3 % 64) :: b64encode rest
  | [b1, b2] => [b64chr (b1 / 4), b64chr ((b1 % 4) * 16 + b2 / 16), b64chr ((b2 % 16) * 4), '=']
  | [b1] => [b64chr (b1 / 4), b64chr ((b1 % 4) * 16), '=', '=']
  | [] => []

/-- Python `base64.b64decode` on schema-conformant input: length a multiple
of four, characters from the standard alphabet, `=` padding only at the end.
(Python with `validate=False` would first discard foreign characters; events
carrying such payloads are outside the inbound schema and not modelled.) -/
def b64decode : List Char → Option (List Nat)
  | [] => some []
  | [a, b, '=', '='] =>
    match b64val? a, b64val? b with
    | some va, some vb => some [va * 4 + vb / 16]
    | _, _ => none
  | [a, b, c, '='] =>
    match b64val? a, b64val? b, b64val? c with
    | some va, some vb, some vc => some [va * 4 + vb / 16, (vb % 16) * 16 + vc / 4]
    | _, _, _ => none
  | a :: b :: c :: d :: rest =>
    match b64val? a, b64val? b, b64val? c, b64val? d with
    | some va, some vb, some vc, some vd =>
      match b64decode rest with
      | some bs => some ((va * 4 + vb / 16) :: ((vb % 16) * 16 + vc / 4) :: ((vc % 4) * 64 + vd) :: bs)
      | none => none
    | _, _, _, _ => none
  | _ => none

/-- Decimal digit value. -/
def digitVal? (c : Char) : Option Nat :=
  if '0' ≤ c ∧ c ≤ '9' then some (c.toNat - 48) else none

def isLeap (y : Nat) : Bool :=
  (y % 4 = 0 && y % 100 ≠ 0) || y % 400 = 0

def daysInMonth (y m : Nat) : Nat :=
  if m = 1 then 31 else if m = 2 then (if isLeap y then 29 else 28)
  else if m = 3 then 31 else if m = 4 then 30 else if m = 5 then 31
  else if m = 6 then 30 else if m = 7 then 31 else if m = 8 then 31
  else if m = 9 then 30 else if m = 10 then 31 else if m = 11 then 30
  else 31

/-- Days from 0000-03-01 to the given civil date (all quantities
non-negative for years ≥ 1, months shifted so March = 0), the standard
days-from-civil computation. -/
def daysFrom03 (y m d : Nat) : Nat :=
  let yAdj := if m ≤ 2 then y - 1 else y
  let era := yAdj / 400
  let yoe := yAdj % 400
  let mp := if m > 2 then m - 3 else m + 9
  let doy := (153 * mp + 2) / 5 + d - 1
  let doe := yoe * 365 + yoe / 4 - yoe / 100 + doy
  era * 146097 + doe

/-- The source's `iso2ts`: `datetime.strptime(iso, '%Y-%m-%dT%H:%M:%SZ')`
with UTC attached, then `.timestamp()`.  Fails (strptime `ValueError`) unless
the string has exactly the 20-character shape with a valid calendar date and
time; years are 4 digits (1..9999).  The result is whole epoch seconds; the
`.timestamp()` float is exactly this integer. -/
def iso2ts (l : List Char) : Option Int :=
  match l with
  | [y1, y2, y3, y4, '-', m1, m2, '-', d1, d2, 'T', h1, h2, ':', n1, n2, ':', s1, s2, 'Z'] =>
    match digitVal? y1, digitVal? y2, digitVal? y3, digitVal? y4,
          digitVal? m1, digitVal? m2, digitVal? d1, digitVal? d2,
          digitVal? h1, digitVal? h2, digitVal? n1, digitVal? n2,
          digitVal? s1, digitVal? s2 with
    | some a1, some a2, some a3, some a4, some b1, some b2, some c1, some c2,
      some e1, some e2, some f1, some f2, some g1, some g2 =>
      let y := ((a1 * 10 + a2) * 10 + a3) * 10 + a4
      let mo := b1 * 10 + b2
      let d := c1 * 10 + c2
      let h := e1 * 10 + e2
      let mi := f1 * 10 + f2
      let s := g1 * 10 + g2
      if 1 ≤ y ∧ 1 ≤ mo ∧ mo ≤ 12 ∧ 1 ≤ d ∧ d ≤ daysInMonth y mo ∧
         h ≤ 23 ∧ mi ≤ 59 ∧ s ≤ 59 then
        some (((daysFrom03 y mo d : Int) - 719468) * 86400 + (h * 3600 + mi * 60 + s : Nat))
      else none
    | _, _, _, _, _, _, _, _, _, _, _, _, _, _ => none
  | _ => none

/-! ## The TLV codec (`tlv_parser`, source lines 73-81) -/

/-- One `(tag, length, value)` triple yielded by the TLV iterator. -/
abbrev TlvTriple := List Char × Nat × List Char

/-- Fuel-indexed body of `tlv_parser`'s `while` loop.  One fuel unit per
iteration; any fuel above `length s` is enough (`tlvFuel_congr`), and
`tlvParser` always supplies enough, so the `0, _ :: _` row is unreachable.
Per iteration: `tag = islice(2)`; the loop exits when `tag` is empty; the
length field `islice(2)` goes through `int(·, 16)`, whose failure is the
`ValueError` recorded in the `Bool` component (`true` = the generator raised
after yielding the triples listed); `value = islice(length*2)` takes
whatever is available, with no completeness check. -/
def tlvFuel : Nat → List Char → List TlvTriple × Bool
  | _, [] => ([], false)
  | 0, _ :: _ => ([], false)
  | fuel + 1, c :: cs =>
    let s := c :: cs
    match hexNat? ((s.drop 2).take 2) with
    | none => ([], true)
    | some len =>
      let p := tlvFuel fuel (((s.drop 2).drop 2).drop (len * 2))
      ((s.take 2, len, ((s.drop 2).drop 2).take (len * 2)) :: p.1, p.2)

/-- The source's `tlv_parser` generator, run to completion: the list of
triples it yields, and whether it then raised (`true`) or terminated
normally (`false`). -/
def tlvParser (s : List Char) : List TlvTriple × Bool :=
  tlvFuel (s.length + 1) s

/-- A structured TLV record used to state round-trip properties. -/
structure TlvRec where
  tag : List Char
  len : Nat
  value : List Char

/-- Wire encoding of one record: tag, length byte as two hex digits, value. -/
def encodeRec (r : TlvRec) : List Char :=
  r.tag ++ byteHex r.len ++ r.value

/-- Concatenation of the encodings of a record list. -/
def encodeAll : List TlvRec → List Char
  | [] => []
  | r :: rs => encodeRec r ++ encodeAll rs

/-- The triple `tlv_parser` yields for a record. -/
def recTriple (r : TlvRec) : TlvTriple := (r.tag, r.len, r.value)

/-- Re-encoding of a yielded triple: tag, then the length as a 2-hex-digit
byte, then the value. -/
def encodeTriple (t : TlvTriple) : List Char :=
  t.1 ++ byteHex t.2.1 ++ t.2.2

/-- Well-formedness of a record list as a hex TLV stream: 2-hex-char tag,
length below 256, value of exactly `2*len` hex characters. -/
def TlvWF (rs : List TlvRec) : Prop :=
  ∀ r ∈ rs, r.tag.length = 2 ∧ (∀ c ∈ r.tag, (hexDigitVal? c).isSome) ∧
    r.len ≤ 255 ∧ r.value.length = 2 * r.len ∧ (∀ c ∈ r.value, (hexDigitVal? c).isSome)

instance : DecidablePred TlvWF := fun rs =>
  inferInstanceAs (Decidable (∀ r ∈ rs, _))

/-! ## Sensor decoders (source lines 107-134) -/

/-- Python exceptions that can escape the handler. -/
inductive PyErr where
  | valueError
  | typeError
  | keyError (k : String)
  | indexError
  | attributeError
  | structError
  | jsonError
  | nameError (v : String)
  | binasciiError

/-- Parsed JSON values / Python objects stored in the result dict. -/
inductive Val where
  | null
  | num (n : Int)
  | rat (q : Rat)
  | str (s : String)
  | list (items : List Val)
  | dict (entries : List (String × Val))

/-- Python dict lookup `d[k]` as an option. -/
def dictGet : List (String × Val) → String → Option Val
  | [], _ => none
  | (k', v) :: rest, k => if k' == k then some v else dictGet rest k

/-- Python dict assignment `d[k] = v`: replace in place, else append
(insertion order preserved). -/
def dictSet : List (String × Val) → String → Val → List (String × Val)
  | [], k, v => [(k, v)]
  | (k', v') :: rest, k, v =>
    if k' == k then (k', v) :: rest else (k', v') :: dictSet rest k v

/-- The battery-level formula `100*(2400-charge)/2400` (used at source
lines 121 and 331): integer arithmetic, then Python true division. -/
def battLevelOfCharge (charge : Nat) : Rat :=
  ((100 * (2400 - (charge : Int)) : Int) : Rat) / 2400

/-- `parse_sensors_full` (source lines 108-123): nibble version and
move-history, `data[2:6]` temperature ×0.01, `data[6:10]` accumulated
charge, `data[10:14]` voltage ×0.001, derived battery level. -/
def parse_sensors_full (data : List Char) : Except PyErr (List (String × Val)) :=
  match hexNat? (pySlice data 0 1), hexNat? (pySlice data 1 2),
        hexNat? (pySlice data 2 6), hexNat? (pySlice data 6 10),
        hexNat? (pySlice data 10 14) with
  | some version, some move, some temp, some ac, some volt =>
    .ok [("type", .str "sensor_full"),
         ("version", .num version),
         ("move_history", .num move),
         ("temperature_C", .rat ((temp : Rat) / 100)),
         ("accumulated_charge", .num ac),
         ("battLevel", .rat (battLevelOfCharge ac)),
         ("voltage", .rat ((volt : Rat) / 1000))]
  | _, _, _, _, _ => .error .valueError

/-- `parse_sensors_basic` (source lines 126-134). -/
def parse_sensors_basic (data : List Char) : Except PyErr (List (String × Val)) :=
  match hexNat? (pySlice data 0 1), hexNat? (pySlice data 1 2) with
  | some version, some move =>
    .ok [("type", .str "sensor_basic"),
         ("version", .num version),
         ("move_history", .num move)]
  | _, _ => .error .valueError

/-- `struct.unpack(">L", bytes.fromhex(val))[0]` (source line 329):
`ValueError` on bad hex, `struct.error` unless exactly 4 bytes. -/
def unpackU32 (val : List Char) : Except PyErr Nat :=
  match bytesFromHex val with
  | none => .error .valueError
  | some bs =>
    match bs with
    | [b1, b2, b3, b4] => .ok (((b1 * 256 + b2) * 256 + b3) * 256 + b4)
    | _ => .error .structError

/-- `struct.unpack(">H", bytes.fromhex(val))[0]` (source line 335). -/
def unpackU16 (val : List Char) : Except PyErr Nat :=
  match bytesFromHex val with
  | none => .error .valueError
  | some bs =>
    match bs with
    | [b1, b2] => .ok (b1 * 256 + b2)
    | _ => .error .structError

/-! ## Python value operations used by the handler -/

/-- `v is None`. -/
def isNull : Val → Bool
  | .null => true
  | _ => false

/-- Python `needle in v` for a string needle: key test on a dict, substring
test on a string, membership on a list, `TypeError` otherwise. -/
def pyIn (needle : String) : Val → Except PyErr Bool
  | .dict d => .ok (d.any (fun p => p.1 == needle))
  | .str s => .ok (listContains needle.toList s.toList)
  | .list l => .ok (l.any (fun x => match x with | .str s => s == needle | _ => false))
  | _ => .error .typeError

/-- Python subscript `v[k]` with a string key: dict lookup (`KeyError` when
missing), `TypeError` on anything else. -/
def pyGet (v : Val) (k : String) : Except PyErr Val :=
  match v with
  | .dict d =>
    match dictGet d k with
    | some x => .ok x
    | none => .error (.keyError k)
  | _ => .error .typeError

/-- Python subscript `v[i]` with an int index: list/str indexing
(`IndexError` out of range), `KeyError` on a JSON dict (string keys only),
`TypeError` otherwise. -/
def pyIdx (v : Val) (i : Nat) : Except PyErr Val :=
  match v with
  | .list l =>
    match l.get? i with
    | some x => .ok x
    | none => .error .indexError
  | .str s =>
    match s.toList.get? i with
    | some c => .ok (.str (String.mk [c]))
    | none => .error .indexError
  | .dict _ => .error (.keyError (toString i))
  | _ => .error .typeError

/-- `downlink['port'] == 0` in Python: int/float compare equal to zero,
any other type is simply unequal (no error). -/
def pyEqZero : Val → Bool
  | .num n => n == 0
  | .rat q => q == 0
  | _ => false

mutual
/-- Approximation of Python `str()` on parsed-JSON values, used only to
build the 404 error message (`.format(td)` at source line 405): objects
print as dicts with single-quoted keys/strings; float rendering is
simplified (no claim depends on this text). -/
def pyRepr : Val → String
  | .null => "None"
  | .num n => toString n
  | .rat q => toString q.num ++ "/" ++ toString q.den
  | .str s => "\x27" ++ s ++ "\x27"
  | .list items => "[" ++ pyReprList items ++ "]"
  | .dict es => "\x7b" ++ pyReprDict es ++ "\x7d"
def pyReprList : List Val → String
  | [] => ""
  | [x] => pyRepr x
  | x :: y :: rest => pyRepr x ++ ", " ++ pyReprList (y :: rest)
def pyReprDict : List (String × Val) → String
  | [] => ""
  | [(k, v)] => "\x27" ++ k ++ "\x27: " ++ pyRepr v
  | (k, v) :: y :: rest => "\x27" ++ k ++ "\x27: " ++ pyRepr v ++ ", " ++ pyReprDict (y :: rest)
end

/-! ## The handler state and collaborators -/

/-- The inbound event, schema-conformant per the network-server interface
(`WirelessMetadata.LoRaWAN` fields, device id, base64 payload).  `FCnt` is a
LoRaWAN frame counter, hence a natural number. -/
structure Event where
  DevEui : List Char
  FCnt : Nat
  FPort : Int
  DataRate : Int
  Frequency : Int
  Timestamp : List Char
  WirelessDeviceId : String
  PayloadData : List Char

/-- One HTTP exchange as seen by the handler: the raw response text
(`send_https` returns `response.read().decode()`) and the value `json.loads`
yields on it (`none` when it would raise). -/
structure HttpResp where
  raw : String
  parsed : Option Val

/-- Arguments of one `send_data_to_wireless_device` call
(source lines 84-95). -/
structure DownCall where
  id : String
  transmitMode : Int
  payloadData : String
  port : Int

/-- Per-invocation context derived from the event (source lines 139-151). -/
structure Ctx where
  DEVEUI : String
  deveui : String
  tsIso : List Char
  wid : String

/-- Mutable state of one handler run: the `retVal` dict, the local `retAcc`
(unbound = `none`; reading it unbound raises `NameError`), the ordered log
of `send_https` bodies, the ordered log of downlink directives with the
`send_downlink` call each produced, the next oracle index, and whether the
local `r` has been bound yet. -/
structure RunSt where
  retVal : List (String × Val)
  retAcc : Option (List (String × Val))
  calls : List Val
  downs : List (Val × DownCall)
  callIdx : Nat
  rBound : Bool

def initSt : RunSt := ⟨[], none, [], [], 0, false⟩

/-- Result of one embedded statement block: exception or unit, plus the
state afterwards (state survives an exception; the source has no handlers,
so an error here aborts the whole invocation). -/
abbrev StepR := Except PyErr Unit × RunSt

/-- `send_https` (source lines 98-105): pops the oracle at the current call
index and logs the body. -/
def scanCall (orc : Nat → HttpResp) (st : RunSt) (body : Val) : HttpResp × RunSt :=
  (orc st.callIdx, { st with calls := st.calls ++ [body], callIdx := st.callIdx + 1 })

/-- The `{deveui: {"msgtype": "joining"}}` body (source line 173). -/
def joinBody (deveui : String) : Val :=
  .dict [(deveui, .dict [("msgtype", .str "joining")])]

/-- The downlink emission common to source lines 199-201 and 367-369:
`port = 150 if downlink['port'] == 0 else 199`, then
`payload = b64encode(bytes.fromhex(downlink['payload'])).decode('ascii')`,
then `send_downlink(id, 0, payload, port)`. -/
def mkDown (id : String) (dn : Val) : Except PyErr DownCall :=
  match pyGet dn "port" with
  | .error e => .error e
  | .ok pv =>
    match pyGet dn "payload" with
    | .error e => .error e
    | .ok plv =>
      match plv with
      | .str s =>
        match bytesFromHex s.toList with
        | some bs => .ok ⟨id, 0, (b64encode bs).asString, if pyEqZero pv then 150 else 199⟩
        | none => .error .valueError
      | _ => .error .typeError

/-- The downlink-directive delivery block, identical at source lines
195-202 (primary response) and 363-370 (GNSS secondary response): when the
inner result dict has a `dnlink` key whose value is not `None`, emit the
downlink and record the (directive, call) pair. -/
def dnlinkStep (wid : String) (entries : List (String × Val)) (st : RunSt) : StepR :=
  if entries.any (fun p => p.1 == "dnlink") then
    match dictGet entries "dnlink" with
    | some dl =>
      if isNull dl then (.ok (), st)
      else
        match mkDown wid dl with
        | .ok call => (.ok (), { st with downs := st.downs ++ [(dl, call)] })
        | .error e => (.error e, st)
    | none => (.ok (), st)
  else (.ok (), st)

/-! ## Per-tag record dispatch (source lines 215-396) -/

/-- Shared wifi-response handling (source lines 237-262 for tag 0E and
277-303 for tag 08; the two blocks are verbatim identical except that the
tag-08 `else` prints the variable `r`, which raises `NameError` when no
`json.loads` result has been bound yet — `needR` selects that behavior).
`'result' in ir` is a substring test on the raw response; only then is the
response parsed, the `position_solution` chain read, `gdop` defaulted to -1
when absent (the `wifi_response['llh']['gdop']` read on a list would be a
`TypeError`, kept as such), and `retVal['wifi_location']` set. -/
def wifiResp (ctx : Ctx) (ir : HttpResp) (st : RunSt) (needR : Bool) : StepR :=
  if strContains ir.raw "result" then
    match ir.parsed with
    | none => (.error .jsonError, st)
    | some r =>
      let st1 : RunSt := { st with rBound := true }
      match (do
          let a ← pyGet r "result"
          let b ← pyGet a ctx.deveui
          let c ← pyGet b "result"
          pyGet c "position_solution" : Except PyErr Val) with
      | .error e => (.error e, st1)
      | .ok wr =>
        if isNull wr then (.ok (), st1)
        else
          match pyIn "gdop" wr with
          | .error e => (.error e, st1)
          | .ok hasG =>
            match (if hasG then (do
                let l ← pyGet wr "llh"
                pyGet l "gdop" : Except PyErr Val) else .ok (.num (-1))) with
            | .error e => (.error e, st1)
            | .ok gdop =>
              match (do
                  let llh ← pyGet wr "llh"
                  let la ← pyIdx llh 0
                  let llh2 ← pyGet wr "llh"
                  let lo ← pyIdx llh2 1
                  let llh3 ← pyGet wr "llh"
                  let al ← pyIdx llh3 2
                  let ac ← pyGet wr "accuracy"
                  let tv ← pyGet wr "timestamp"
                  Except.ok (la, lo, al, ac, tv) : Except PyErr (Val × Val × Val × Val × Val)) with
              | .error e => (.error e, st1)
              | .ok (la, lo, al, ac, tv) =>
                let loc := Val.dict [("msgtype", .str "wifi"), ("DevEUI", .str ctx.DEVEUI),
                  ("latitude", la), ("longitude", lo), ("altitude", al),
                  ("acc", ac), ("gdop", gdop), ("timestamp", tv)]
                (.ok (), { st1 with
                  retVal := dictSet (dictSet st1.retVal "wifi_location" loc) "statusCode" (.num 200) })
  else
    if needR && !st.rBound then (.error (.nameError "r"), st) else (.ok (), st)

/-- Tag 0E (source lines 218-262): `ts = int(val[2:10], 16)`, substitute the
uplink timestamp when zero, payload `'01' + val[10:]`, then the wifi
round-trip. -/
def wifiBranchA (ctx : Ctx) (orc : Nat → HttpResp) (st : RunSt) (val : List Char) : StepR :=
  match hexNat? (pySlice val 2 10) with
  | none => (.error .valueError, st)
  | some ts =>
    match iso2ts ctx.tsIso with
    | none => (.error .valueError, st)
    | some pts =>
      let timestamp : Int := if ts = 0 then pts else (ts : Int)
      let payload := '0' :: '1' :: val.drop 10
      let body := Val.dict [(ctx.deveui, .dict [("msgtype", .str "wifi"),
        ("payload", .str payload.asString), ("timestamp", .num timestamp)])]
      let hr := scanCall orc st body
      wifiResp ctx hr.1 hr.2 false

/-- Tag 08 (source lines 263-303): payload `'01' + val`, timestamp is the
float `iso2ts(...)` (no `int()` here), then the wifi round-trip with the
`r`-printing `else`. -/
def wifiBranchB (ctx : Ctx) (orc : Nat → HttpResp) (st : RunSt) (val : List Char) : StepR :=
  match iso2ts ctx.tsIso with
  | none => (.error .valueError, st)
  | some pts =>
    let payload := '0' :: '1' :: val
    let body := Val.dict [(ctx.deveui, .dict [("msgtype", .str "wifi"),
      ("payload", .str payload.asString), ("timestamp", .rat (pts : Rat))])]
    let hr := scanCall orc st body
    wifiResp ctx hr.1 hr.2 true

/-- Tag 09 (source lines 305-327): `retAcc` is bound to the msgtype/DevEUI
dict first (so a later unpack failure still leaves it bound, as in Python),
then `struct.unpack(">Bhhhh", ...)` (9 bytes exactly), the 8-bit motion
history, milli-g accelerations and temperature, and
`retVal['accelerometer'] = retAcc`. -/
def accBranch (ctx : Ctx) (st : RunSt) (val : List Char) : StepR :=
  let acc0 : List (String × Val) := [("msgtype", .str "accelerometer"), ("DevEUI", .str ctx.DEVEUI)]
  let st1 : RunSt := { st with retAcc := some acc0 }
  match bytesFromHex val with
  | none => (.error .valueError, st1)
  | some bs =>
    match bs with
    | [b0, x1, x2, y1, y2, z1, z2, t1, t2] =>
      let motArr := (List.range 8).map
        (fun i => Val.str (if b0.testBit i then "Motion" else "Still"))
      let accVals := Val.dict [("motArr", .list motArr),
        ("xAcc_mg", .rat ((toS16 (x1 * 256 + x2) : Rat) / 1000)),
        ("yAcc_mg", .rat ((toS16 (y1 * 256 + y2) : Rat) / 1000)),
        ("zAcc_mg", .rat ((toS16 (z1 * 256 + z2) : Rat) / 1000)),
        ("Temp_C", .rat ((toS16 (t1 * 256 + t2) : Rat) / 100))]
      let acc1 := acc0 ++ [("accVals", accVals)]
      let st2 : RunSt := { st1 with retAcc := some acc1 }
      (.ok (), { st2 with
        retVal := dictSet (dictSet st2.retVal "accelerometer" (.dict acc1)) "statusCode" (.num 200) })
    | _ => (.error .structError, st1)

/-- Tag 0A (source lines 328-333): unpack the 32-bit charge, then write
`retAcc["modemCharge"]` and `retAcc['battLevel']` — a `NameError` when no
tag-09 record has bound `retAcc` in this invocation.  In Python
`retVal['accelerometer']` aliases `retAcc` whenever the latter is bound
(only the tag-09 branch binds it, and it stores the same object into
`retVal`), so the mutation is mirrored into `retVal` here. -/
def chargeBranch (st : RunSt) (val : List Char) : StepR :=
  match unpackU32 val with
  | .error e => (.error e, st)
  | .ok charge =>
    match st.retAcc with
    | none => (.error (.nameError "retAcc"), st)
    | some acc =>
      let acc1 := dictSet (dictSet acc "modemCharge" (.num charge))
        "battLevel" (.rat (battLevelOfCharge charge))
      let st1 : RunSt := { st with retAcc := some acc1 }
      (.ok (), { st1 with
        retVal := dictSet (dictSet st1.retVal "accelerometer" (.dict acc1)) "statusCode" (.num 200) })

/-- Tag 0B (source lines 334-338): unpack the 16-bit voltage ×0.001, then
write `retAcc['modemVolt']` — same `NameError` and aliasing as tag 0A. -/
def voltBranch (st : RunSt) (val : List Char) : StepR :=
  match unpackU16 val with
  | .error e => (.error e, st)
  | .ok v =>
    match st.retAcc with
    | none => (.error (.nameError "retAcc"), st)
    | some acc =>
      let acc1 := dictSet acc "modemVolt" (.rat ((v : Rat) / 1000))
      let st1 : RunSt := { st with retAcc := some acc1 }
      (.ok (), { st1 with
        retVal := dictSet (dictSet st1.retVal "accelerometer" (.dict acc1)) "statusCode" (.num 200) })

/-- Tag 0D (source lines 339-345): dispatch on the declared length (1 or 7);
any other length leaves `retVal['sensors']` unset and the following
`print('sensor:{}'.format(retVal['sensors']))` raises `KeyError` unless an
earlier record set it. -/
def sensorsBranch (st : RunSt) (length : Nat) (val : List Char) : StepR :=
  match (if length = 1 then parse_sensors_basic val
         else if length = 7 then parse_sensors_full val
         else .ok []) with
  | .error e => (.error e, st)
  | .ok sens =>
    let rv := if length = 1 ∨ length = 7 then dictSet st.retVal "sensors" (.dict sens) else st.retVal
    match dictGet rv "sensors" with
    | none => (.error (.keyError "sensors"), { st with retVal := rv })
    | some _ => (.ok (), { st with retVal := dictSet rv "statusCode" (.num 200) })

/-- The GNSS location extraction (source lines 371-392): read
`position_solution` from the inner result dict (`KeyError` when absent); a
`None` solution contributes nothing; otherwise build the location dict
(this time `gdop` is read unconditionally, `KeyError` when missing) and
store it under `gnss_location`, or `gnss_location_<TAG>` when
`gnss_location` is already taken. -/
def gnssLoc (ctx : Ctx) (tagU val : List Char) (entries : List (String × Val))
    (st3 : RunSt) : StepR :=
  match pyGet (Val.dict entries) "position_solution" with
  | .error e => (.error e, st3)
  | .ok gr =>
    if isNull gr then (.ok (), st3)
    else
      match (do
          let llh ← pyGet gr "llh"
          let la ← pyIdx llh 0
          let llh2 ← pyGet gr "llh"
          let lo ← pyIdx llh2 1
          let llh3 ← pyGet gr "llh"
          let al ← pyIdx llh3 2
          let ac ← pyGet gr "accuracy"
          let gd ← pyGet gr "gdop"
          let tv ← pyGet gr "timestamp"
          Except.ok (la, lo, al, ac, gd, tv) :
            Except PyErr (Val × Val × Val × Val × Val × Val)) with
      | .error e => (.error e, st3)
      | .ok (la, lo, al, ac, gd, tv) =>
        let loc := Val.dict [("msgtype", .str "gnss"),
          ("soltype", .str val.asString), ("DevEUI", .str ctx.DEVEUI),
          ("latitude", la), ("longitude", lo), ("altitude", al),
          ("acc", ac), ("gdop", gd), ("timestamp", tv)]
        let key := if (dictGet st3.retVal "gnss_location").isSome then
            "gnss_location_" ++ tagU.asString
          else "gnss_location"
        (.ok (), { st3 with
          retVal := dictSet (dictSet st3.retVal key loc) "statusCode" (.num 200) })

/-- GNSS response handling (source lines 359-396): `'result' in ir` is a
substring test on the raw text; then parse (binding `r`), read the inner
result dict (`.keys()` on a non-dict is an `AttributeError`), deliver an
optional downlink directive, then extract the location. -/
def gnssResp (ctx : Ctx) (tagU val : List Char) (ir : HttpResp) (st1 : RunSt) : StepR :=
  if strContains ir.raw "result" then
    match ir.parsed with
    | none => (.error .jsonError, st1)
    | some r =>
      let st2 : RunSt := { st1 with rBound := true }
      match (do
          let a ← pyGet r "result"
          let b ← pyGet a ctx.deveui
          pyGet b "result" : Except PyErr Val) with
      | .error e => (.error e, st2)
      | .ok inner =>
        match inner with
        | .dict entries =>
          let ds := dnlinkStep ctx.wid entries st2
          match ds.1 with
          | .error e => (.error e, ds.2)
          | .ok _ => gnssLoc ctx tagU val entries ds.2
        | _ => (.error .attributeError, st2)
  else (.ok (), st1)

/-- Tags 05/06/07 (source lines 346-396): forward the value as a GNSS scan,
then handle the response. -/
def gnssBranch (ctx : Ctx) (orc : Nat → HttpResp) (st : RunSt) (tagU val : List Char) : StepR :=
  match iso2ts ctx.tsIso with
  | none => (.error .valueError, st)
  | some pts =>
    let body := Val.dict [(ctx.deveui, .dict [("msgtype", .str "gnss"),
      ("payload", .str val.asString), ("timestamp", .rat (pts : Rat))])]
    let hr := scanCall orc st body
    gnssResp ctx tagU val hr.1 hr.2

/-- One TLV record dispatched by its tag (source lines 215-396).  The source
applies `tag.upper()` at every comparison and at the `gnss_location_` key;
the hoisted `tagU` is the same pure value.  Unrecognized tags are silently
skipped. -/
def processRecord (ctx : Ctx) (orc : Nat → HttpResp) (st : RunSt) (t : TlvTriple) : StepR :=
  let tagU := pyUpperL t.1
  if tagU = ['0', 'E'] then wifiBranchA ctx orc st t.2.2
  else if tagU = ['0', '8'] then wifiBranchB ctx orc st t.2.2
  else if tagU = ['0', '9'] then accBranch ctx st t.2.2
  else if tagU = ['0', 'A'] then chargeBranch st t.2.2
  else if tagU = ['0', 'B'] then voltBranch st t.2.2
  else if tagU = ['0', 'D'] then sensorsBranch st t.2.1 t.2.2
  else if tagU = ['0', '5'] ∨ tagU = ['0', '6'] ∨ tagU = ['0', '7'] then
    gnssBranch ctx orc st tagU t.2.2
  else (.ok (), st)

/-- `for tlv in tlv_parser(pl)` body over the already-yielded triples. -/
def processRecords (ctx : Ctx) (orc : Nat → HttpResp) : RunSt → List TlvTriple → StepR
  | st, [] => (.ok (), st)
  | st, t :: ts =>
    let r := processRecord ctx orc st t
    match r.1 with
    | .ok _ => processRecords ctx orc r.2 ts
    | .error e => (.error e, r.2)

/-- `for i in range(len(v))` over one `stream_records` list (source lines
212-216): each entry that is a list has `v[i][1]` taken as the TLV payload
(`IndexError` if too short, and iterating a non-string would fail at the
first `''.join`, modelled as `TypeError`); the generator's triples are
processed in order, and the deferred `ValueError` of a truncated stream
fires after them. -/
def processEntries (ctx : Ctx) (orc : Nat → HttpResp) : RunSt → List Val → StepR
  | st, [] => (.ok (), st)
  | st, e :: rest =>
    match e with
    | .list inner =>
      match inner.get? 1 with
      | none => (.error .indexError, st)
      | some pl =>
        match pl with
        | .str s =>
          let parsed := tlvParser s.toList
          let pr := processRecords ctx orc st parsed.1
          match pr.1 with
          | .ok _ =>
            if parsed.2 then (.error .valueError, pr.2)
            else processEntries ctx orc pr.2 rest
          | .error e => (.error e, pr.2)
        | _ => (.error .typeError, st)
    | _ => processEntries ctx orc st rest

/-- `for x in td['result'][deveui]['result'].items()` (source lines
204-211): only `stream_records` entries that are lists are processed. -/
def processItems (ctx : Ctx) (orc : Nat → HttpResp) : RunSt → List (String × Val) → StepR
  | st, [] => (.ok (), st)
  | st, (k, v) :: rest =>
    if k == "stream_records" then
      match v with
      | .list entries =>
        let pe := processEntries ctx orc st entries
        match pe.1 with
        | .ok _ => processItems ctx orc pe.2 rest
        | .error e => (.error e, pe.2)
      | _ => processItems ctx orc st rest
    else processItems ctx orc st rest

/-! ## The orchestrator (`lambda_handler`, source lines 137-410) -/

/-- The primary forward body `dmsmsg` (source lines 178-187). -/
def primaryBody (ctx : Ctx) (ev : Event) (payloadHex : List Char) (ts : Int) : Val :=
  .dict [(ctx.deveui, .dict [("fcnt", .num ev.FCnt), ("port", .num ev.FPort),
    ("payload", .str payloadHex.asString), ("dr", .num ev.DataRate),
    ("freq", .num ev.Frequency), ("timestamp", .num ts)])]

/-- The wrong-port result dict (source lines 155-161), including the
source's spelling of the message. -/
def errPortReturn (ev : Event) (DEVEUI : String) : List (String × Val) :=
  [("error", .str ("Port number 199 expected, receieved: " ++ toString ev.FPort)),
   ("statusCode", .num 400),
   ("msgtype", .str "Error"),
   ("DevEUI", .str DEVEUI),
   ("timestamp", .str ev.Timestamp.asString)]

/-- Everything after the optional join notification (source lines 177-410):
build and send the primary forward, parse, dispatch on `'result' in td`,
deliver the primary downlink directive if present, walk the items, and
build the final 200/404 result dict. -/
def afterJoin (ctx : Ctx) (ev : Event) (orc : Nat → HttpResp) (payloadHex : List Char)
    (st : RunSt) : Except PyErr (List (String × Val)) × RunSt :=
  match iso2ts ev.Timestamp with
  | none => (.error .valueError, st)
  | some ts =>
    let hr := scanCall orc st (primaryBody ctx ev payloadHex ts)
    let st1 := hr.2
    match hr.1.parsed with
    | none => (.error .jsonError, st1)
    | some td =>
      match pyIn "result" td with
      | .error e => (.error e, st1)
      | .ok false =>
        let rv := [("error", .str ("Error, Bad CS response: " ++ pyRepr td)),
          ("statusCode", .num 404), ("msgtype", .str "Error"),
          ("DevEUI", .str ctx.DEVEUI), ("timestamp", .str ev.Timestamp.asString)]
        (.ok rv, { st1 with retVal := rv })
      | .ok true =>
        match (do
            let a ← pyGet td "result"
            let b ← pyGet a ctx.deveui
            pyGet b "result" : Except PyErr Val) with
        | .error e => (.error e, st1)
        | .ok inner =>
          match inner with
          | .dict entries =>
            let ds := dnlinkStep ctx.wid entries st1
            match ds.1 with
            | .error e => (.error e, ds.2)
            | .ok _ =>
              let pi3 := processItems ctx orc ds.2 entries
              match pi3.1 with
              | .error e => (.error e, pi3.2)
              | .ok _ =>
                let rv := dictSet (dictSet (dictSet (dictSet pi3.2.retVal
                  "statusCode" (.num 200)) "msgtype" (.str "Reference"))
                  "DevEUI" (.str ctx.DEVEUI)) "timestamp" (.str ev.Timestamp.asString)
                (.ok rv, { pi3.2 with retVal := rv })
          | _ => (.error .attributeError, st1)

/-- Context construction (source lines 139-144): dash-join the EUI pairs,
`DEVEUI = dashed.upper()`, `deveui = DEVEUI.lower()`. -/
def mkCtx (ev : Event) : Ctx :=
  let dashed := dashPairs ev.DevEui
  ⟨(pyUpperL dashed).asString, (pyLowerL (pyUpperL dashed)).asString, ev.Timestamp,
    ev.WirelessDeviceId⟩

/-- The best-effort join notification (source lines 169-175): sent exactly
when `fcnt < 2`; only its call is logged — the response is printed and
never read, so the state does not depend on the oracle's answer. -/
def joinStep (ev : Event) (orc : Nat → HttpResp) (deveui : String) : RunSt :=
  if ev.FCnt < 2 then (scanCall orc initSt (joinBody deveui)).2 else initSt

/-- What the downlink emitter guarantees about each recorded
(directive, call) pair: transmit mode 0, port remapped from the directive's
`port` entry (a value equal to 0 gives 150, anything else 199), and payload
the base64 encoding of the hex-decoded directive payload. -/
def DnlinkEmitted (dn : Val) (d : DownCall) : Prop :=
  d.transmitMode = 0 ∧
  (∃ pv, pyGet dn "port" = .ok pv ∧ d.port = (if pyEqZero pv then 150 else 199)) ∧
  (∃ s bs, pyGet dn "payload" = .ok (.str s) ∧ bytesFromHex s.toList = some bs ∧
    d.payloadData = (b64encode bs).asString)

/-- A `send_https` body of the join-notification shape
`{deveui: {"msgtype": "joining"}}`. -/
def JoinShaped (c : Val) : Prop :=
  ∃ d, c = .dict [(d, .dict [("msgtype", .str "joining")])]

/-- Two oracles agreeing on every call index from `k` on. -/
def OrcAgree (k : Nat) (o1 o2 : Nat → HttpResp) : Prop :=
  ∀ n, k ≤ n → o1 n = o2 n

/-- Relation between the state before and after a piece of the run: the
call log and the downlink log only grow, the call counter is monotone, no
appended call body is join-shaped, and every appended downlink pair is
emitter-produced. -/
def FrameOK (st st' : RunSt) : Prop :=
  ∃ nc nd, st'.calls = st.calls ++ nc ∧ st'.downs = st.downs ++ nd ∧
    st.callIdx ≤ st'.callIdx ∧ (∀ c ∈ nc, ¬ JoinShaped c) ∧
    (∀ p ∈ nd, DnlinkEmitted p.1 p.2)

/-- `lambda_handler` (source lines 137-410).  Returns the result dict the
function returns, or the exception that escapes it, together with the final
log state.  `b64decode(event['PayloadData'])` runs before the port check;
the join notification (`fcnt < 2`) is sent before the primary forward and
its response is never read. -/
def lambda_handler (ev : Event) (orc : Nat → HttpResp) :
    Except PyErr (List (String × Val)) × RunSt :=
  let ctx := mkCtx ev
  match b64decode ev.PayloadData with
  | none => (.error .binasciiError, initSt)
  | some pb =>
    let payloadHex := bytesToHex pb
    if ev.FPort ≠ 199 then
      (.ok (errPortReturn ev ctx.DEVEUI), { initSt with retVal := errPortReturn ev ctx.DEVEUI })
    else
      afterJoin ctx ev orc payloadHex (joinStep ev orc ctx.deveui)

/-! ## Concrete fixtures used by the claim theorems and their witnesses -/

/-- Two well-formed TLV records (a basic sensor record and an accelerometer
record prefix) used as a concrete stream. -/
def rsW : List TlvRec := [⟨['0', 'D'], 1, ['1', '3']⟩, ⟨['0', '9'], 2, ['A', 'B', 'C', 'D']⟩]

def devEuiW : List Char := "0011223344556677".toList

def deveuiW : String := "00-11-22-33-44-55-66-77"

def tsW : List Char := "2021-01-01T00:00:00Z".toList

/-- Port-199 event, frame counter 5, payload byte `0x01`. -/
def evW : Event := ⟨devEuiW, 5, 199, 1, 868100000, tsW, "wdid-1", "AQ==".toList⟩

/-- Wrong-port event (port 1). -/
def evC4 : Event := ⟨devEuiW, 0, 1, 1, 868100000, tsW, "wdid-1", "AQ==".toList⟩

/-- Port-199 event with frame counter 0 (fresh join). -/
def evC7 : Event := ⟨devEuiW, 0, 199, 1, 868100000, tsW, "wdid-1", "AQ==".toList⟩

/-- An oracle whose responses are unparsable junk. -/
def orcNull : Nat → HttpResp := fun _ => ⟨"", none⟩

/-- Primary response carrying one stream record with a single tag-0A
(charge) TLV record and no preceding tag-09 record. -/
def orcC3 : Nat → HttpResp := fun _ =>
  ⟨"x", some (.dict [("result", .dict [(deveuiW, .dict [("result",
    .dict [("stream_records", .list [.list [.num 0, .str "0A0400000960"]])])])])])⟩

/-- A solver downlink directive with port 0 and payload hex `ABCD`. -/
def dlC5 : Val := .dict [("port", .num 0), ("payload", .str "ABCD")]

/-- Primary response carrying the directive `dlC5` and nothing else. -/
def orcC5 : Nat → HttpResp := fun _ =>
  ⟨"x", some (.dict [("result", .dict [(deveuiW, .dict [("result",
    .dict [("dnlink", dlC5)])])])])⟩

/-- The downlink call the source emits for `dlC5`: transmit mode 0, base64
of bytes `AB CD`, remapped port 150. -/
def downC5 : DownCall := ⟨"wdid-1", 0, "q80=", 150⟩

/-- A GNSS position solution with all fields offset from `base`. -/
def posSolC9 (base : Int) : Val :=
  .dict [("llh", .list [.num base, .num (base + 1), .num (base + 2)]),
         ("accuracy", .num (base + 3)), ("gdop", .num (base + 4)),
         ("timestamp", .num (base + 5))]

/-- A secondary solver response whose raw text contains `result` and whose
parse carries `posSolC9 base`. -/
def secRespC9 (base : Int) : HttpResp :=
  ⟨"result", some (.dict [("result", .dict [(deveuiW, .dict [("result",
    .dict [("position_solution", posSolC9 base)])])])])⟩

/-- Oracle for the two-GNSS-record uplink: the primary response carries one
stream record holding tag-06 and tag-07 TLV records; the two secondary
calls return distinct position solutions. -/
def orcC9 : Nat → HttpResp := fun n =>
  if n = 0 then
    ⟨"x", some (.dict [("result", .dict [(deveuiW, .dict [("result",
      .dict [("stream_records", .list [.list [.num 0, .str "0601AB0701CD"]])])])])])⟩
  else if n = 1 then secRespC9 1
  else secRespC9 7

/-- The aggregate entry produced for the tag-06 record. -/
def locC9a : Val := .dict [("msgtype", .str "gnss"), ("soltype", .str "AB"),
  ("DevEUI", .str deveuiW), ("latitude", .num 1), ("longitude", .num 2),
  ("altitude", .num 3), ("acc", .num 4), ("gdop", .num 5), ("timestamp", .num 6)]

/-- The aggregate entry produced for the tag-07 record. -/
def locC9b : Val := .dict [("msgtype", .str "gnss"), ("soltype", .str "CD"),
  ("DevEUI", .str deveuiW), ("latitude", .num 7), ("longitude", .num 8),
  ("altitude", .num 9), ("acc", .num 10), ("gdop", .num 11), ("timestamp", .num 12)]

/-- A concrete dispatch context. -/
def ctxW : Ctx := ⟨deveuiW, deveuiW, tsW, "wdid-1"⟩


/-! # Theorems

## TLV codec lemmas -/

theorem hexDigitVal?_hexDigit : ∀ d < 16, hexDigitVal? (hexDigit d) = some d := by decide

theorem hexNat?_pair (n : Nat) (h : n ≤ 255) :
    hexNat? [hexDigit (n / 16), hexDigit (n % 16)] = some n := by
  have h1 : n / 16 < 16 := Nat.div_lt_of_lt_mul (by omega)
  have h2 : n % 16 < 16 := Nat.mod_lt _ (by omega)
  simp only [hexNat?, hexNatAux, hexDigitVal?_hexDigit _ h1, hexDigitVal?_hexDigit _ h2,
    if_neg (by simp : ¬([hexDigit (n / 16), hexDigit (n % 16)] = []))]
  simp only [Option.some.injEq]
  omega

theorem tlvFuel_congr : ∀ (f1 f2 : Nat) (s : List Char), s.length < f1 → s.length < f2 →
    tlvFuel f1 s = tlvFuel f2 s := by
  intro f1
  induction f1 with
  | zero => intro f2 s h1 _; omega
  | succ f ih =>
    intro f2 s h1 h2
    match s, f2 with
    | [], f2 => cases f2 <;> rfl
    | c :: cs, 0 => omega
    | c :: cs, g + 1 =>
      simp only [tlvFuel]
      cases hx : hexNat? (((c :: cs).drop 2).take 2) with
      | none => rfl
      | some len =>
        have hrec := ih g ((((c :: cs).drop 2).drop 2).drop (len * 2))
          (by simp only [List.length_drop, List.length_cons] at h1 ⊢; omega)
          (by simp only [List.length_drop, List.length_cons] at h2 ⊢; omega)
        simp only [hrec]

theorem tlvParser_nil : tlvParser [] = ([], false) := rfl

/-- One loop iteration on a stream with a complete tag and length field. -/
theorem tlvParser_step_some (a b d1 d2 : Char) (rest : List Char) (len : Nat)
    (hx : hexNat? [d1, d2] = some len) :
    tlvParser (a :: b :: d1 :: d2 :: rest) =
      (([a, b], len, rest.take (len * 2)) :: (tlvParser (rest.drop (len * 2))).1,
        (tlvParser (rest.drop (len * 2))).2) := by
  have hc : tlvFuel (rest.length + 1 + 1 + 1 + 1) (rest.drop (len * 2)) =
      tlvParser (rest.drop (len * 2)) := by
    rw [tlvParser]
    exact tlvFuel_congr _ _ _ (by simp only [List.length_drop]; omega) (by omega)
  simp only [tlvParser, List.length_cons, tlvFuel,
    show ((a :: b :: d1 :: d2 :: rest).drop 2).take 2 = [d1, d2] from rfl,
    show ((a :: b :: d1 :: d2 :: rest).drop 2).drop 2 = rest from rfl,
    show (a :: b :: d1 :: d2 :: rest).take 2 = [a, b] from rfl, hx, hc]

/-- Parsing a well-formed record followed by anything yields that record's
triple and continues on the remainder. -/
theorem tlvParser_cons (r : TlvRec) (t : List Char)
    (h2 : r.tag.length = 2) (hl : r.len ≤ 255) (hv : r.value.length = 2 * r.len) :
    tlvParser (encodeRec r ++ t) = (recTriple r :: (tlvParser t).1, (tlvParser t).2) := by
  obtain ⟨a, b, htag⟩ := List.length_eq_two.mp h2
  have hs : encodeRec r ++ t =
      a :: b :: hexDigit (r.len / 16) :: hexDigit (r.len % 16) :: (r.value ++ t) := by
    simp [encodeRec, htag, byteHex]
  rw [hs, tlvParser_step_some _ _ _ _ _ _ (hexNat?_pair r.len hl),
    List.take_left' (show r.value.length = r.len * 2 by omega),
    List.drop_left' (show r.value.length = r.len * 2 by omega),
    recTriple, htag]

/-- Parsing the encoding of a well-formed record list followed by any
suffix yields exactly those records' triples and then behaves as the parse
of the suffix alone. -/
theorem tlvParser_append (rs : List TlvRec) (suffix : List Char) (h : TlvWF rs) :
    tlvParser (encodeAll rs ++ suffix) =
      ((rs.map recTriple) ++ (tlvParser suffix).1, (tlvParser suffix).2) := by
  induction rs with
  | nil => simp [encodeAll]
  | cons r rs ih =>
    have hr := h r (by simp)
    have hrest : TlvWF rs := fun x hx => h x (by simp [hx])
    have hsplit : encodeAll (r :: rs) ++ suffix = encodeRec r ++ (encodeAll rs ++ suffix) := by
      simp [encodeAll]
    rw [hsplit, tlvParser_cons r _ hr.1 hr.2.2.1 hr.2.2.2.1, ih hrest]
    simp

theorem tlvParser_midlength (t1 t2 d : Char) (dd : Nat) (hd : hexDigitVal? d = some dd) :
    tlvParser [t1, t2, d] = ([([t1, t2], dd, [])], false) := by
  have hx : hexNat? [d] = some dd := by
    simp [hexNat?, hexNatAux, hd]
  simp only [tlvParser, List.length_cons, tlvFuel,
    show (([t1, t2, d] : List Char).drop 2).take 2 = [d] from rfl,
    show (([t1, t2, d] : List Char).drop 2).drop 2 = ([] : List Char) from rfl,
    show ([t1, t2, d] : List Char).take 2 = [t1, t2] from rfl, hx,
    List.take_nil, List.drop_nil]

/-- Claim C1: for every well-formed TLV hex stream of N records, the parser
yields exactly the N `(tag, length, value)` triples in input order and
terminates normally (an input ending exactly on a tag boundary after the
K-th full record gives exactly K triples and no error), and re-encoding
each yielded triple (tag, then the length as a 2-hex-digit byte, then the
value) reproduces that record's original substring. -/
theorem C1_tlv_roundtrip (rs : List TlvRec) (h : TlvWF rs) :
    tlvParser (encodeAll rs) = (rs.map recTriple, false) ∧
    (tlvParser (encodeAll rs)).1.length = rs.length ∧
    (tlvParser (encodeAll rs)).1.map encodeTriple = rs.map encodeRec := by
  have happ := tlvParser_append rs [] h
  rw [List.append_nil, tlvParser_nil] at happ
  simp only [List.append_nil] at happ
  refine ⟨happ, ?_, ?_⟩
  · rw [happ]; simp
  · rw [happ, List.map_map]; rfl

/-- Witness for C1 at the concrete stream `rsW` (`0D0113` + `0902ABCD`). -/
theorem C1_tlv_roundtrip_witness :
    TlvWF rsW ∧
    (tlvParser (encodeAll rsW) = (rsW.map recTriple, false) ∧
     (tlvParser (encodeAll rsW)).1.length = rsW.length ∧
     (tlvParser (encodeAll rsW)).1.map encodeTriple = rsW.map encodeRec) :=
  ⟨by decide, C1_tlv_roundtrip rsW (by decide)⟩

/-- Counterexample to claim C2: the claim says any input ending mid-length
or with fewer value characters than declared raises a truncation error
before yielding the truncated record.  In fact `0D0` (record ends after one
length character) yields the triple `('0D', 0, '')` and terminates normally
with no error, and `0D02AB` (declared length 2 bytes, only one byte of
value) yields `('0D', 2, 'AB')` and terminates normally with no error. -/
theorem C2_truncation_counterexample :
    tlvParser "0D0".toList = ([(['0', 'D'], 0, [])], false) ∧
    tlvParser "0D02AB".toList = ([(['0', 'D'], 2, ['A', 'B'])], false) :=
  ⟨rfl, rfl⟩

/-- Claim C2 as amended: after any well-formed prefix, only an input ending
mid-tag or with an empty length field raises (the `ValueError` of
`int('', 16)`); an input ending with a single length hex digit `d` yields a
final normal triple `(tag, d, '')`, and an input with fewer value
characters than declared yields the short value in a final normal triple —
in both cases the sequence terminates normally with no error. -/
theorem C2_truncation_amended (rs : List TlvRec) (h : TlvWF rs) :
    (∀ c : Char, tlvParser (encodeAll rs ++ [c]) = (rs.map recTriple, true)) ∧
    (∀ c1 c2 : Char, tlvParser (encodeAll rs ++ [c1, c2]) = (rs.map recTriple, true)) ∧
    (∀ (t1 t2 d : Char) (dd : Nat), hexDigitVal? d = some dd →
      tlvParser (encodeAll rs ++ [t1, t2, d]) =
        (rs.map recTriple ++ [([t1, t2], dd, [])], false)) ∧
    (∀ (t1 t2 : Char) (L : Nat) (v : List Char), L ≤ 255 → v.length < 2 * L →
      tlvParser (encodeAll rs ++ (t1 :: t2 :: byteHex L ++ v)) =
        (rs.map recTriple ++ [([t1, t2], L, v)], false)) := by
  refine ⟨?_, ?_, ?_, ?_⟩
  · intro c
    rw [tlvParser_append rs [c] h, show tlvParser [c] = ([], true) from rfl]
    simp
  · intro c1 c2
    rw [tlvParser_append rs [c1, c2] h, show tlvParser [c1, c2] = ([], true) from rfl]
    simp
  · intro t1 t2 d dd hd
    rw [tlvParser_append rs [t1, t2, d] h, tlvParser_midlength t1 t2 d dd hd]
  · intro t1 t2 L v hL hv
    rw [tlvParser_append rs _ h,
      show (t1 :: t2 :: byteHex L ++ v) =
        t1 :: t2 :: hexDigit (L / 16) :: hexDigit (L % 16) :: v by simp [byteHex],
      tlvParser_step_some _ _ _ _ _ _ (hexNat?_pair L hL),
      List.take_of_length_le (by omega), List.drop_eq_nil_of_le (by omega),
      tlvParser_nil]

/-- Witness for C2's amended statement at `rsW` with each truncation shape. -/
theorem C2_truncation_amended_witness :
    TlvWF rsW ∧
    tlvParser (encodeAll rsW ++ ['F']) = (rsW.map recTriple, true) ∧
    tlvParser (encodeAll rsW ++ ['0', 'D']) = (rsW.map recTriple, true) ∧
    tlvParser (encodeAll rsW ++ ['0', 'D', '3']) =
      (rsW.map recTriple ++ [(['0', 'D'], 3, [])], false) ∧
    tlvParser (encodeAll rsW ++ ('0' :: 'D' :: byteHex 2 ++ ['A', 'B'])) =
      (rsW.map recTriple ++ [(['0', 'D'], 2, ['A', 'B'])], false) :=
  ⟨by decide,
   (C2_truncation_amended rsW (by decide)).1 'F',
   (C2_truncation_amended rsW (by decide)).2.1 '0' 'D',
   (C2_truncation_amended rsW (by decide)).2.2.1 '0' 'D' '3' 3 (by decide),
   (C2_truncation_amended rsW (by decide)).2.2.2 '0' 'D' 2 ['A', 'B'] (by decide) (by decide)⟩

/-! ## Concrete-run claims -/

/-- Claim C3 (code bug): a payload whose stream records contain a tag-0A
(charge) record with no preceding tag-09 (accelerometer) record makes
`lambda_handler` raise `NameError` on the unbound local `retAcc`
(source line 330) instead of returning a structured result dict. -/
theorem C3_unbound_retAcc_crash :
    (lambda_handler evW orcC3).1 = .error (.nameError "retAcc") := rfl

/-- Counterexample to claim C6: `parse_sensors_full` on the hex string
`01 03 09C4 00000960 0DAC` of the claim (20 characters, 10 bytes) reads its
fields at nibble/character offsets, so it returns version 0 (first hex
character `0`), not 1, and accumulated charge 0xC400 = 50176 (characters
6..10), not 2400. -/
theorem C6_sensor_full_counterexample :
    (parse_sensors_full "010309C4000009600DAC".toList).toOption.bind
      (fun d => dictGet d "version") = some (.num 0) ∧
    (parse_sensors_full "010309C4000009600DAC".toList).toOption.bind
      (fun d => dictGet d "accumulated_charge") = some (.num 50176) :=
  ⟨rfl, rfl⟩

/-- Claim C6 as amended: the 7-byte SensorFull value whose version nibble is
1, move-history nibble 3, temperature bytes `09C4`, charge bytes `0960` and
voltage bytes `0DAC` — i.e. the 14-character hex string `1309C409600DAC` —
decodes to version 1, move_history 3, temperature 25.00 °C, accumulated
charge 2400, battery level 0 (via `100*(2400-charge)/2400`) and voltage
3.5 V. -/
theorem C6_sensor_full_amended :
    parse_sensors_full "1309C409600DAC".toList =
      .ok [("type", .str "sensor_full"), ("version", .num 1), ("move_history", .num 3),
           ("temperature_C", .rat 25), ("accumulated_charge", .num 2400),
           ("battLevel", .rat 0), ("voltage", .rat (7 / 2))] := by
  have h0 : parse_sensors_full "1309C409600DAC".toList =
      .ok [("type", .str "sensor_full"), ("version", .num 1), ("move_history", .num 3),
           ("temperature_C", .rat (((2500 : Nat) : Rat) / 100)), ("accumulated_charge", .num 2400),
           ("battLevel", .rat (battLevelOfCharge 2400)),
           ("voltage", .rat (((3500 : Nat) : Rat) / 1000))] := rfl
  have h1 : ((2500 : Nat) : Rat) / 100 = 25 := by norm_num
  have h2 : battLevelOfCharge 2400 = 0 := by norm_num [battLevelOfCharge]
  have h3 : ((3500 : Nat) : Rat) / 1000 = 7 / 2 := by norm_num
  rw [h0, h1, h2, h3]

/-- Claim C8: a tag-0A value `00000960` unpacks to charge 2400 with battery
level 0, and `00000000` to charge 0 with battery level 100, by the exact
formula `100*(2400-charge)/2400` (these are the definitions the tag-0A
branch `chargeBranch` uses). -/
theorem C8_battery_charge :
    unpackU32 "00000960".toList = .ok 2400 ∧ battLevelOfCharge 2400 = 0 ∧
    unpackU32 "00000000".toList = .ok 0 ∧ battLevelOfCharge 0 = 100 :=
  ⟨rfl, by norm_num [battLevelOfCharge], rfl, by norm_num [battLevelOfCharge]⟩

/-- Claim C9: with two GNSS records of tags 06 and 07 in one uplink and both
secondary solver calls returning position solutions, the returned aggregate
holds both solutions under the distinct keys `gnss_location` and
`gnss_location_07`, and the two stored locations are distinct. -/
theorem C9_distinct_gnss_keys :
    ((lambda_handler evW orcC9).1.toOption.bind
      (fun rv => dictGet rv "gnss_location")) = some locC9a ∧
    ((lambda_handler evW orcC9).1.toOption.bind
      (fun rv => dictGet rv "gnss_location_07")) = some locC9b ∧
    locC9a ≠ locC9b := by
  refine ⟨rfl, rfl, ?_⟩
  intro hcontra
  have hlat := congrArg
    (fun v => match v with | Val.dict d => dictGet d "latitude" | _ => none) hcontra
  simp only [locC9a, locC9b, dictGet] at hlat
  simp at hlat

/-! ## Frame lemmas: how each run step extends the logs -/

theorem FrameOK.idx {st st' : RunSt} (h : FrameOK st st') : st.callIdx ≤ st'.callIdx := by
  obtain ⟨_, _, _, _, h3, _, _⟩ := h
  exact h3

theorem frameOK_of_keep {st st' : RunSt} (h1 : st'.calls = st.calls)
    (h2 : st'.downs = st.downs) (h3 : st.callIdx ≤ st'.callIdx) : FrameOK st st' :=
  ⟨[], [], by simp [h1], by simp [h2], h3, by simp, by simp⟩

theorem frameOK_refl (st : RunSt) : FrameOK st st := frameOK_of_keep rfl rfl le_rfl

theorem frameOK_trans {s1 s2 s3 : RunSt} (h12 : FrameOK s1 s2) (h23 : FrameOK s2 s3) :
    FrameOK s1 s3 := by
  obtain ⟨nc, nd, hc, hd, hk, hnc, hnd⟩ := h12
  obtain ⟨nc2, nd2, hc2, hd2, hk2, hnc2, hnd2⟩ := h23
  refine ⟨nc ++ nc2, nd ++ nd2, by simp [hc2, hc], by simp [hd2, hd], le_trans hk hk2, ?_, ?_⟩
  · intro c hcm
    rcases List.mem_append.mp hcm with hx | hx
    exacts [hnc c hx, hnc2 c hx]
  · intro p hpm
    rcases List.mem_append.mp hpm with hx | hx
    exacts [hnd p hx, hnd2 p hx]

theorem notJoinShaped_of_len (d : String) (es : List (String × Val)) (h : es.length ≠ 1) :
    ¬ JoinShaped (.dict [(d, .dict es)]) := by
  rintro ⟨dv, hjs⟩
  simp only [Val.dict.injEq, List.cons.injEq, Prod.mk.injEq, and_true] at hjs
  exact h (by rw [hjs.2]; rfl)

theorem frameOK_scanCall (orc : Nat → HttpResp) (st : RunSt) {body : Val}
    (h : ¬ JoinShaped body) : FrameOK st (scanCall orc st body).2 :=
  ⟨[body], [], rfl, by simp [scanCall], by simp [scanCall], by simpa using h, by simp⟩

theorem mkDown_emitted {i : String} {dn : Val} {d : DownCall} (h : mkDown i dn = .ok d) :
    DnlinkEmitted dn d := by
  unfold mkDown at h
  cases hp : pyGet dn "port" <;> rw [hp] at h <;> dsimp only at h
  case error e => cases h
  case ok pv =>
    cases hpl : pyGet dn "payload" <;> rw [hpl] at h <;> dsimp only at h
    case error e => cases h
    case ok plv =>
      cases plv <;> dsimp only at h <;> try cases h
      case str s =>
        cases hbs : bytesFromHex s.toList <;> rw [hbs] at h <;> dsimp only at h
        case none => cases h
        case some bs =>
          cases h
          exact ⟨rfl, ⟨pv, hp, rfl⟩, ⟨s, bs, hpl, hbs, rfl⟩⟩

theorem dnlinkStep_frame (wid : String) (entries : List (String × Val)) (st : RunSt) :
    FrameOK st (dnlinkStep wid entries st).2 := by
  unfold dnlinkStep
  repeat' split
  all_goals first
  | exact frameOK_refl st
  | (rename_i dl hget hnull xx call hcall
     exact ⟨[], [(dl, call)], by simp, rfl, le_rfl, by simp,
       by simpa using mkDown_emitted hcall⟩)

theorem wifiResp_frame (ctx : Ctx) (ir : HttpResp) (st : RunSt) (b : Bool) :
    FrameOK st (wifiResp ctx ir st b).2 := by
  unfold wifiResp
  repeat' split
  all_goals exact frameOK_of_keep rfl rfl le_rfl

theorem frameOK_call_resp (ctx : Ctx) (orc : Nat → HttpResp) (st : RunSt) (body : Val) (b : Bool)
    (h : ¬ JoinShaped body) :
    FrameOK st (wifiResp ctx (scanCall orc st body).1 (scanCall orc st body).2 b).2 :=
  frameOK_trans (frameOK_scanCall orc st h) (wifiResp_frame _ _ _ _)

theorem wifiBranchA_frame (ctx : Ctx) (orc : Nat → HttpResp) (st : RunSt) (val : List Char) :
    FrameOK st (wifiBranchA ctx orc st val).2 := by
  unfold wifiBranchA
  repeat' split
  all_goals first
  | exact frameOK_refl st
  | exact frameOK_call_resp _ _ _ _ _ (notJoinShaped_of_len _ _ (by simp))

theorem wifiBranchB_frame (ctx : Ctx) (orc : Nat → HttpResp) (st : RunSt) (val : List Char) :
    FrameOK st (wifiBranchB ctx orc st val).2 := by
  unfold wifiBranchB
  repeat' split
  all_goals first
  | exact frameOK_refl st
  | exact frameOK_call_resp _ _ _ _ _ (notJoinShaped_of_len _ _ (by simp))

theorem accBranch_frame (ctx : Ctx) (st : RunSt) (val : List Char) :
    FrameOK st (accBranch ctx st val).2 := by
  unfold accBranch
  repeat' split
  all_goals exact frameOK_of_keep rfl rfl le_rfl

theorem chargeBranch_frame (st : RunSt) (val : List Char) :
    FrameOK st (chargeBranch st val).2 := by
  unfold chargeBranch
  repeat' split
  all_goals exact frameOK_of_keep rfl rfl le_rfl

theorem voltBranch_frame (st : RunSt) (val : List Char) :
    FrameOK st (voltBranch st val).2 := by
  unfold voltBranch
  repeat' split
  all_goals exact frameOK_of_keep rfl rfl le_rfl

theorem sensorsBranch_frame (st : RunSt) (len : Nat) (val : List Char) :
    FrameOK st (sensorsBranch st len val).2 := by
  unfold sensorsBranch
  dsimp only
  repeat' split
  all_goals exact frameOK_of_keep rfl rfl le_rfl

theorem frameOK_rBound (st : RunSt) : FrameOK st { st with rBound := true } :=
  frameOK_of_keep rfl rfl le_rfl

theorem frameOK_retVal (st : RunSt) (rv : List (String × Val)) :
    FrameOK st { st with retVal := rv } :=
  frameOK_of_keep rfl rfl le_rfl

theorem gnssLoc_frame (ctx : Ctx) (tagU val : List Char) (entries : List (String × Val))
    (st3 : RunSt) : FrameOK st3 (gnssLoc ctx tagU val entries st3).2 := by
  unfold gnssLoc
  dsimp only
  repeat' split
  all_goals exact frameOK_of_keep rfl rfl le_rfl

theorem gnssResp_frame (ctx : Ctx) (tagU val : List Char) (ir : HttpResp) (st1 : RunSt) :
    FrameOK st1 (gnssResp ctx tagU val ir st1).2 := by
  unfold gnssResp
  dsimp only
  repeat' split
  all_goals first
  | exact frameOK_refl st1
  | exact frameOK_rBound st1
  | exact frameOK_trans (frameOK_rBound st1) (dnlinkStep_frame _ _ _)
  | exact frameOK_trans (frameOK_trans (frameOK_rBound st1)
      (dnlinkStep_frame _ _ _)) (gnssLoc_frame _ _ _ _ _)

theorem gnssBranch_frame (ctx : Ctx) (orc : Nat → HttpResp) (st : RunSt)
    (tagU val : List Char) : FrameOK st (gnssBranch ctx orc st tagU val).2 := by
  unfold gnssBranch
  dsimp only
  split
  · exact frameOK_refl st
  · exact frameOK_trans (frameOK_scanCall orc st (notJoinShaped_of_len _ _ (by simp)))
      (gnssResp_frame _ _ _ _ _)

theorem processRecord_frame (ctx : Ctx) (orc : Nat → HttpResp) (st : RunSt) (t : TlvTriple) :
    FrameOK st (processRecord ctx orc st t).2 := by
  unfold processRecord
  dsimp only
  repeat' split
  all_goals first
  | exact wifiBranchA_frame ctx orc st _
  | exact wifiBranchB_frame ctx orc st _
  | exact accBranch_frame ctx st _
  | exact chargeBranch_frame st _
  | exact voltBranch_frame st _
  | exact sensorsBranch_frame st _ _
  | exact gnssBranch_frame ctx orc st _ _
  | exact frameOK_refl st

theorem processRecords_frame (ctx : Ctx) (orc : Nat → HttpResp) :
    ∀ (ts : List TlvTriple) (st : RunSt), FrameOK st (processRecords ctx orc st ts).2 := by
  intro ts
  induction ts with
  | nil => intro st; exact frameOK_refl st
  | cons t ts ih =>
    intro st
    unfold processRecords
    dsimp only
    split
    · exact frameOK_trans (processRecord_frame ctx orc st t) (ih _)
    · exact processRecord_frame ctx orc st t

theorem processEntries_frame (ctx : Ctx) (orc : Nat → HttpResp) :
    ∀ (es : List Val) (st : RunSt), FrameOK st (processEntries ctx orc st es).2 := by
  intro es
  induction es with
  | nil => intro st; exact frameOK_refl st
  | cons e rest ih =>
    intro st
    unfold processEntries
    dsimp only
    repeat' split
    all_goals first
    | exact frameOK_refl st
    | exact ih st
    | exact processRecords_frame ctx orc _ st
    | exact frameOK_trans (processRecords_frame ctx orc _ st) (ih _)

theorem processItems_frame (ctx : Ctx) (orc : Nat → HttpResp) :
    ∀ (items : List (String × Val)) (st : RunSt), FrameOK st (processItems ctx orc st items).2 := by
  intro items
  induction items with
  | nil => intro st; exact frameOK_refl st
  | cons kv rest ih =>
    intro st
    unfold processItems
    dsimp only
    repeat' split
    all_goals first
    | exact frameOK_refl st
    | exact ih st
    | exact processEntries_frame ctx orc _ st
    | exact frameOK_trans (processEntries_frame ctx orc _ st) (ih _)

theorem primaryBody_notJoin (ctx : Ctx) (ev : Event) (hex : List Char) (ts : Int) :
    ¬ JoinShaped (primaryBody ctx ev hex ts) := by
  unfold primaryBody
  exact notJoinShaped_of_len _ _ (by simp)

theorem afterJoin_frame (ctx : Ctx) (ev : Event) (orc : Nat → HttpResp) (hex : List Char)
    (st : RunSt) : FrameOK st (afterJoin ctx ev orc hex st).2 := by
  unfold afterJoin
  dsimp only
  repeat' split
  all_goals first
  | exact frameOK_refl st
  | exact frameOK_scanCall orc st (primaryBody_notJoin ctx ev hex _)
  | exact frameOK_trans (frameOK_scanCall orc st (primaryBody_notJoin ctx ev hex _))
      (frameOK_retVal _ _)
  | exact frameOK_trans (frameOK_scanCall orc st (primaryBody_notJoin ctx ev hex _))
      (dnlinkStep_frame _ _ _)
  | exact frameOK_trans (frameOK_trans (frameOK_scanCall orc st (primaryBody_notJoin ctx ev hex _))
      (dnlinkStep_frame _ _ _)) (processItems_frame _ _ _ _)

theorem joinStep_downs (ev : Event) (orc : Nat → HttpResp) (d : String) :
    (joinStep ev orc d).downs = [] := by
  unfold joinStep
  split <;> rfl

theorem joinStep_calls (ev : Event) (orc : Nat → HttpResp) (d : String) :
    (joinStep ev orc d).calls = if ev.FCnt < 2 then [joinBody d] else [] := by
  unfold joinStep
  split <;> rfl

theorem joinStep_idx (ev : Event) (orc : Nat → HttpResp) (d : String) :
    (joinStep ev orc d).callIdx = if ev.FCnt < 2 then 1 else 0 := by
  unfold joinStep
  split <;> rfl

theorem joinStep_orc (ev : Event) (o1 o2 : Nat → HttpResp) (d : String) :
    joinStep ev o1 d = joinStep ev o2 d := by
  unfold joinStep
  split <;> rfl

/-! ## Oracle congruence: the join response is never read, and each step
only queries the oracle at its own call indices -/

theorem wifiBranchA_congr (ctx : Ctx) (o1 o2 : Nat → HttpResp) (st : RunSt) (val : List Char)
    (h : OrcAgree st.callIdx o1 o2) :
    wifiBranchA ctx o1 st val = wifiBranchA ctx o2 st val := by
  unfold wifiBranchA
  simp only [scanCall]
  rw [h st.callIdx le_rfl]

theorem wifiBranchB_congr (ctx : Ctx) (o1 o2 : Nat → HttpResp) (st : RunSt) (val : List Char)
    (h : OrcAgree st.callIdx o1 o2) :
    wifiBranchB ctx o1 st val = wifiBranchB ctx o2 st val := by
  unfold wifiBranchB
  simp only [scanCall]
  rw [h st.callIdx le_rfl]

theorem gnssBranch_congr (ctx : Ctx) (o1 o2 : Nat → HttpResp) (st : RunSt)
    (tagU val : List Char) (h : OrcAgree st.callIdx o1 o2) :
    gnssBranch ctx o1 st tagU val = gnssBranch ctx o2 st tagU val := by
  unfold gnssBranch
  simp only [scanCall]
  rw [h st.callIdx le_rfl]

theorem processRecord_congr (ctx : Ctx) (o1 o2 : Nat → HttpResp) (st : RunSt) (t : TlvTriple)
    (h : OrcAgree st.callIdx o1 o2) :
    processRecord ctx o1 st t = processRecord ctx o2 st t := by
  unfold processRecord
  dsimp only
  repeat' split
  all_goals first
  | rfl
  | exact wifiBranchA_congr ctx o1 o2 st _ h
  | exact wifiBranchB_congr ctx o1 o2 st _ h
  | exact gnssBranch_congr ctx o1 o2 st _ _ h

theorem processRecords_congr (ctx : Ctx) :
    ∀ (ts : List TlvTriple) (st : RunSt) (o1 o2 : Nat → HttpResp),
      OrcAgree st.callIdx o1 o2 →
      processRecords ctx o1 st ts = processRecords ctx o2 st ts := by
  intro ts
  induction ts with
  | nil => intro st o1 o2 h; rfl
  | cons t ts ih =>
    intro st o1 o2 h
    unfold processRecords
    dsimp only
    rw [processRecord_congr ctx o1 o2 st t h]
    split
    · exact ih _ o1 o2 (fun n hn => h n (le_trans (processRecord_frame ctx o2 st t).idx hn))
    · rfl

theorem processEntries_congr (ctx : Ctx) :
    ∀ (es : List Val) (st : RunSt) (o1 o2 : Nat → HttpResp),
      OrcAgree st.callIdx o1 o2 →
      processEntries ctx o1 st es = processEntries ctx o2 st es := by
  intro es
  induction es with
  | nil => intro st o1 o2 h; rfl
  | cons e rest ih =>
    intro st o1 o2 h
    unfold processEntries
    cases e with
    | list inner =>
      dsimp only
      cases hg : inner.get? 1 with
      | none => rfl
      | some pl =>
        cases pl with
        | str s =>
          dsimp only
          rw [processRecords_congr ctx (tlvParser s.toList).1 st o1 o2 h]
          split
          · split
            · rfl
            · exact ih _ o1 o2 (fun n hn =>
                h n (le_trans (processRecords_frame ctx o2 (tlvParser s.toList).1 st).idx hn))
          · rfl
        | null => rfl
        | num n => rfl
        | rat q => rfl
        | list l => rfl
        | dict d => rfl
    | null => exact ih st o1 o2 h
    | num n => exact ih st o1 o2 h
    | rat q => exact ih st o1 o2 h
    | str s => exact ih st o1 o2 h
    | dict d => exact ih st o1 o2 h

theorem processItems_congr (ctx : Ctx) :
    ∀ (items : List (String × Val)) (st : RunSt) (o1 o2 : Nat → HttpResp),
      OrcAgree st.callIdx o1 o2 →
      processItems ctx o1 st items = processItems ctx o2 st items := by
  intro items
  induction items with
  | nil => intro st o1 o2 h; rfl
  | cons kv rest ih =>
    intro st o1 o2 h
    obtain ⟨k, v⟩ := kv
    unfold processItems
    dsimp only
    split
    · cases v with
      | list entries =>
        dsimp only
        rw [processEntries_congr ctx entries st o1 o2 h]
        split
        · exact ih _ o1 o2 (fun n hn =>
            h n (le_trans (processEntries_frame ctx o2 entries st).idx hn))
        · rfl
      | null => exact ih st o1 o2 h
      | num n => exact ih st o1 o2 h
      | rat q => exact ih st o1 o2 h
      | str s => exact ih st o1 o2 h
      | dict d => exact ih st o1 o2 h
    · exact ih st o1 o2 h

theorem afterJoin_congr (ctx : Ctx) (ev : Event) (hex : List Char) (st : RunSt)
    (o1 o2 : Nat → HttpResp) (h : OrcAgree st.callIdx o1 o2) :
    afterJoin ctx ev o1 hex st = afterJoin ctx ev o2 hex st := by
  unfold afterJoin
  dsimp only
  cases hts : iso2ts ev.Timestamp with
  | none => rfl
  | some ts =>
    dsimp only
    simp only [scanCall]
    rw [h st.callIdx le_rfl]
    split
    any_goals rfl
    split
    any_goals rfl
    split
    any_goals rfl
    split
    any_goals rfl
    split
    any_goals rfl
    rename_i entries hchain xx aa hds
    rw [processItems_congr ctx entries
      ((dnlinkStep ctx.wid entries
        { st with calls := st.calls ++ [primaryBody ctx ev hex ts],
                  callIdx := st.callIdx + 1 }).2) o1 o2
      (fun n hn => h n (le_trans (le_trans (Nat.le_succ st.callIdx)
        (dnlinkStep_frame ctx.wid entries
          { st with calls := st.calls ++ [primaryBody ctx ev hex ts],
                    callIdx := st.callIdx + 1 }).idx) hn))]

/-! ## Orchestrator claims -/

/-- Claim C4: any uplink whose port is not 199 (with a schema-conformant
base64 payload, which the source decodes before the port check) yields the
ok result dict with statusCode 400, msgtype `Error` and the source's exact
expected-vs-received message, and no outbound call of any kind is made. -/
theorem C4_wrong_port (ev : Event) (orc : Nat → HttpResp)
    (hp : ev.FPort ≠ 199) (hb : (b64decode ev.PayloadData).isSome) :
    (lambda_handler ev orc).1 = .ok (errPortReturn ev (mkCtx ev).DEVEUI) ∧
    dictGet (errPortReturn ev (mkCtx ev).DEVEUI) "statusCode" = some (.num 400) ∧
    dictGet (errPortReturn ev (mkCtx ev).DEVEUI) "msgtype" = some (.str "Error") ∧
    dictGet (errPortReturn ev (mkCtx ev).DEVEUI) "error" =
      some (.str ("Port number 199 expected, receieved: " ++ toString ev.FPort)) ∧
    (lambda_handler ev orc).2.calls = [] ∧ (lambda_handler ev orc).2.downs = [] := by
  obtain ⟨pb, hpb⟩ := Option.isSome_iff_exists.mp hb
  have hrun : lambda_handler ev orc =
      (.ok (errPortReturn ev (mkCtx ev).DEVEUI),
        { initSt with retVal := errPortReturn ev (mkCtx ev).DEVEUI }) := by
    unfold lambda_handler
    rw [hpb]
    simp [hp]
  rw [hrun]
  exact ⟨rfl, rfl, rfl, rfl, rfl, rfl⟩

/-- Witness for C4 at the concrete port-1 event. -/
theorem C4_wrong_port_witness :
    (evC4.FPort ≠ 199 ∧ (b64decode evC4.PayloadData).isSome) ∧
    ((lambda_handler evC4 orcNull).1 = .ok (errPortReturn evC4 (mkCtx evC4).DEVEUI) ∧
     dictGet (errPortReturn evC4 (mkCtx evC4).DEVEUI) "statusCode" = some (.num 400) ∧
     dictGet (errPortReturn evC4 (mkCtx evC4).DEVEUI) "msgtype" = some (.str "Error") ∧
     dictGet (errPortReturn evC4 (mkCtx evC4).DEVEUI) "error" =
       some (.str ("Port number 199 expected, receieved: " ++ toString evC4.FPort)) ∧
     (lambda_handler evC4 orcNull).2.calls = [] ∧ (lambda_handler evC4 orcNull).2.downs = []) :=
  ⟨⟨by decide, rfl⟩, C4_wrong_port evC4 orcNull (by decide) rfl⟩

/-- Claim C5: every downlink the handler emits — whether triggered by the
primary response or by a GNSS secondary response — uses transmit mode 0, a
port of 150 exactly when the solver directive's port equals 0 and 199 for
every other directive port value, and a payload that is the base64
encoding of the hex-decoded directive payload. -/
theorem C5_downlink_remap (ev : Event) (orc : Nat → HttpResp) (dn : Val) (d : DownCall)
    (hmem : (dn, d) ∈ (lambda_handler ev orc).2.downs) :
    d.transmitMode = 0 ∧
    (∃ pv, pyGet dn "port" = .ok pv ∧ d.port = (if pyEqZero pv then 150 else 199)) ∧
    (∃ s bs, pyGet dn "payload" = .ok (.str s) ∧ bytesFromHex s.toList = some bs ∧
      d.payloadData = (b64encode bs).asString) := by
  suffices hemit : DnlinkEmitted dn d by exact hemit
  unfold lambda_handler at hmem
  cases hpb : b64decode ev.PayloadData with
  | none => rw [hpb] at hmem; simp [initSt] at hmem
  | some pb =>
    rw [hpb] at hmem
    dsimp only at hmem
    by_cases hp : ev.FPort ≠ 199
    · rw [if_pos hp] at hmem
      simp [initSt] at hmem
    · rw [if_neg hp] at hmem
      obtain ⟨nc, nd, hc, hd, hk, hnc, hnd⟩ :=
        afterJoin_frame (mkCtx ev) ev orc (bytesToHex pb) (joinStep ev orc (mkCtx ev).deveui)
      rw [hd, joinStep_downs] at hmem
      simp only [List.nil_append] at hmem
      exact hnd (dn, d) hmem

/-- Witness for C5: the directive `dlC5` (port 0, payload `ABCD`) in the
primary response makes the handler emit exactly `downC5` (port 150, base64
payload `q80=`). -/
theorem C5_downlink_remap_witness :
    ((dlC5, downC5) ∈ (lambda_handler evW orcC5).2.downs) ∧
    (downC5.transmitMode = 0 ∧
     (∃ pv, pyGet dlC5 "port" = .ok pv ∧ downC5.port = (if pyEqZero pv then 150 else 199)) ∧
     (∃ s bs, pyGet dlC5 "payload" = .ok (.str s) ∧ bytesFromHex s.toList = some bs ∧
       downC5.payloadData = (b64encode bs).asString)) := by
  have hmem : (dlC5, downC5) ∈ (lambda_handler evW orcC5).2.downs := by
    have hlist : (lambda_handler evW orcC5).2.downs = [(dlC5, downC5)] := rfl
    rw [hlist]
    exact List.mem_singleton_self _
  exact ⟨hmem, C5_downlink_remap evW orcC5 dlC5 downC5 hmem⟩

/-- Claim C7: on a port-199 uplink, a join notification
`{deveui: {"msgtype": "joining"}}` is the first outbound solver call
exactly when the frame counter is 0 or 1; with frame counter 2 or more no
call of the join shape is ever made; and when the join fires, the entire
run (result and all logs) is unchanged under any change of the oracle's
answer to call 0 — a failed join response cannot abort primary
processing. -/
theorem C7_join_notification (ev : Event) (orc : Nat → HttpResp)
    (hp : ev.FPort = 199) (hb : (b64decode ev.PayloadData).isSome) :
    ((ev.FCnt = 0 ∨ ev.FCnt = 1) →
      (lambda_handler ev orc).2.calls.head? = some (joinBody (mkCtx ev).deveui)) ∧
    (¬(ev.FCnt = 0 ∨ ev.FCnt = 1) →
      ∀ c ∈ (lambda_handler ev orc).2.calls, ¬ JoinShaped c) ∧
    ((ev.FCnt = 0 ∨ ev.FCnt = 1) → ∀ orc2 : Nat → HttpResp,
      (∀ n, 1 ≤ n → orc2 n = orc n) → lambda_handler ev orc2 = lambda_handler ev orc) := by
  obtain ⟨pb, hpb⟩ := Option.isSome_iff_exists.mp hb
  have hnp : ¬ ev.FPort ≠ 199 := by simp [hp]
  refine ⟨?_, ?_, ?_⟩
  · intro hfc
    have hfc2 : ev.FCnt < 2 := by omega
    unfold lambda_handler
    rw [hpb]
    dsimp only
    rw [if_neg hnp]
    obtain ⟨nc, nd, hc, hd, hk, hnc, hnd⟩ :=
      afterJoin_frame (mkCtx ev) ev orc (bytesToHex pb) (joinStep ev orc (mkCtx ev).deveui)
    rw [hc, joinStep_calls, if_pos hfc2]
    rfl
  · intro hfc c hcm
    have hfc2 : ¬ ev.FCnt < 2 := by omega
    unfold lambda_handler at hcm
    rw [hpb] at hcm
    dsimp only at hcm
    rw [if_neg hnp] at hcm
    obtain ⟨nc, nd, hc, hd, hk, hnc, hnd⟩ :=
      afterJoin_frame (mkCtx ev) ev orc (bytesToHex pb) (joinStep ev orc (mkCtx ev).deveui)
    rw [hc, joinStep_calls, if_neg hfc2] at hcm
    simp only [List.nil_append] at hcm
    exact hnc c hcm
  · intro hfc orc2 hag
    have hfc2 : ev.FCnt < 2 := by omega
    unfold lambda_handler
    rw [hpb]
    dsimp only
    rw [if_neg hnp, if_neg hnp, joinStep_orc ev orc2 orc]
    apply afterJoin_congr
    intro n hn
    rw [joinStep_idx, if_pos hfc2] at hn
    exact hag n hn

/-- Witness for C7 at the concrete frame-counter-0 event. -/
theorem C7_join_notification_witness :
    (evC7.FPort = 199 ∧ (b64decode evC7.PayloadData).isSome) ∧
    (((evC7.FCnt = 0 ∨ evC7.FCnt = 1) →
       (lambda_handler evC7 orcNull).2.calls.head? = some (joinBody (mkCtx evC7).deveui)) ∧
     (¬(evC7.FCnt = 0 ∨ evC7.FCnt = 1) →
       ∀ c ∈ (lambda_handler evC7 orcNull).2.calls, ¬ JoinShaped c) ∧
     ((evC7.FCnt = 0 ∨ evC7.FCnt = 1) → ∀ orc2 : Nat → HttpResp,
       (∀ n, 1 ≤ n → orc2 n = orcNull n) →
       lambda_handler evC7 orc2 = lambda_handler evC7 orcNull)) :=
  ⟨⟨rfl, rfl⟩, C7_join_notification evC7 orcNull rfl rfl⟩

/-- Claim C10: tag dispatch is case-insensitive — two TLV records whose
tags agree after `.upper()` are dispatched identically and produce the same
state, because every tag comparison (and the `gnss_location_` key suffix)
uses the upper-cased tag. -/
theorem C10_tag_case_insensitive (ctx : Ctx) (orc : Nat → HttpResp) (st : RunSt)
    (t1 t2 : List Char) (len : Nat) (val : List Char) (h : pyUpperL t1 = pyUpperL t2) :
    processRecord ctx orc st (t1, len, val) = processRecord ctx orc st (t2, len, val) := by
  unfold processRecord
  dsimp only
  rw [h]

/-- Witness for C10 on the lower-case wifi tag `0e` versus `0E`. -/
theorem C10_tag_case_insensitive_witness :
    pyUpperL ['0', 'e'] = pyUpperL ['0', 'E'] ∧
    processRecord ctxW orcNull initSt (['0', 'e'], 2, ['A', 'B', 'C', 'D']) =
      processRecord ctxW orcNull initSt (['0', 'E'], 2, ['A', 'B', 'C', 'D']) :=
  ⟨by decide,
   C10_tag_case_insensitive ctxW orcNull initSt ['0', 'e'] ['0', 'E'] 2 ['A', 'B', 'C', 'D']
     (by decide)⟩
